import Mathlib

/-!
# Verification of the `elf64` decoder

Shallow embedding of the `elf64` crate (a read-only ELF64 decoder) and proofs
about its behaviour.  Byte buffers are modelled as `List Nat` (each element a
byte value), machine integers as `Nat` with explicit wrapping where the source
can overflow, and fallible Rust functions as `Except Error _`.  Functions that
can panic in Rust (out-of-bounds slice indexing, `unimplemented!`) are
modelled in the outcome type `ROut`, which separates a panic from a returned
error.

A note on the error type: `common.rs` defines the truncation kind as
`Error::SliceTooShort`; the decoder modules of this snapshot of the crate
write `Error::NotEnoughData` for the same truncation kind (the snapshot mixes two
revisions of the error-constructor name).  Both are
modelled by the single constructor `Error.SliceTooShort`.  The symbol decoder
additionally uses `Error::ReservedFieldIsNotZero`, which we include.
`Utf8Error`'s payload (the `core::str::Utf8Error` value) is not carried, only
the kind.
-/

namespace Elf64

/-- Rust `Encoding` from `header.rs`: the byte order declared at identifier
offset 0x05. -/
inductive Encoding where
  | Little
  | Big
deriving DecidableEq, Repr

/-- Rust `UnexpectedSize` from `common.rs`: which self-declared record size
mismatched. -/
inductive UnexpectedSize where
  | Header
  | ProgramHeader
  | SectionHeader
deriving DecidableEq, Repr

/-- Rust `Error` from `common.rs` (constructor set as used across the crate; the
truncation kind `SliceTooShort`/`NotEnoughData` is one constructor, see the
module comment). -/
inductive Error where
  | SliceTooShort
  | WrongMagicNumber
  | UnknownEncoding (v : Nat)
  | Utf8Error
  | UnexpectedSize (s : UnexpectedSize)
  | ReservedFieldIsNotZero
deriving DecidableEq, Repr

/-- Outcome of a Rust computation that may also panic (out-of-bounds slice
index or `unimplemented!`): `ok`, a returned `Error`, or a panic. -/
inductive ROut (α : Type) where
  | ok (a : α)
  | err (e : Error)
  | panicked
deriving DecidableEq, Repr

/-- Rust sub-slice `&s[a..b]` (used only where the source has already
established `a ≤ b ≤ s.len()`; the panicking form is `subP`). -/
def sub (s : List Nat) (a b : Nat) : List Nat :=
  (s.drop a).take (b - a)

/-- Rust sub-slice `&s[a..b]` with the panic made explicit: `none` exactly
when Rust would panic (`a > b` or `b > s.len()`). -/
def subP (s : List Nat) (a b : Nat) : Option (List Nat) :=
  if a ≤ b ∧ b ≤ s.length then some (sub s a b) else none

/-- Little-endian value of a byte slice (first byte least significant),
as `byteorder::LittleEndian::read_uN` on an exact-width slice. -/
def wordLE (l : List Nat) : Nat :=
  l.foldr (fun b acc => b + 0x100 * acc) 0

/-- Big-endian value of a byte slice (first byte most significant),
as `byteorder::BigEndian::read_uN` on an exact-width slice. -/
def wordBE (l : List Nat) : Nat :=
  l.foldl (fun acc b => 0x100 * acc + b) 0

/-- Rust `LittleEndian/BigEndian::read_uN(&s[a..b])`: the single parametrised
"read integer of width `b - a` with endianness `e`" helper; every decoder's
duplicated little/big match arms are modelled through it. -/
def readAt (e : Encoding) (s : List Nat) (a b : Nat) : Nat :=
  match e with
  | .Little => wordLE (sub s a b)
  | .Big => wordBE (sub s a b)

/-- Rust `Class` from `header.rs`. -/
inductive Class where
  | _32
  | _64
  | Unknown (v : Nat)
deriving DecidableEq, Repr

/-- Rust `impl From<u8> for Class`. -/
def Class.ofU8 (v : Nat) : Class :=
  if v = 1 then ._32 else if v = 2 then ._64 else .Unknown v

/-- Rust `impl From<Class> for u8`. -/
def Class.toU8 : Class → Nat
  | ._32 => 0x01
  | ._64 => 0x02
  | .Unknown t => t

/-- Rust `impl TryFrom<u8> for Encoding`. -/
def Encoding.tryFromU8 (v : Nat) : Except Nat Encoding :=
  if v = 1 then .ok .Little else if v = 2 then .ok .Big else .error v

/-- Rust `impl From<Encoding> for u8`. -/
def Encoding.toU8 : Encoding → Nat
  | .Little => 0x01
  | .Big => 0x02

/-- Rust `Abi` from `header.rs`. -/
inductive Abi where
  | SystemV
  | HpUx
  | NetBSD
  | Linux
  | Solaris
  | Aix
  | Irix
  | FreeBSD
  | OpenBSD
  | OpenVMS
  | Standalone
  | Unknown (v : Nat)
deriving DecidableEq, Repr

/-- Rust `impl From<u8> for Abi`. -/
def Abi.ofU8 (v : Nat) : Abi :=
  if v = 0x00 then .SystemV
  else if v = 0x01 then .HpUx
  else if v = 0x02 then .NetBSD
  else if v = 0x03 then .Linux
  else if v = 0x06 then .Solaris
  else if v = 0x07 then .Aix
  else if v = 0x08 then .Irix
  else if v = 0x09 then .FreeBSD
  else if v = 0x0c then .OpenBSD
  else if v = 0x0d then .OpenVMS
  else if v = 0xff then .Standalone
  else .Unknown v

/-- Rust `impl From<Abi> for u8`. -/
def Abi.toU8 : Abi → Nat
  | .SystemV => 0x00
  | .HpUx => 0x01
  | .NetBSD => 0x02
  | .Linux => 0x03
  | .Solaris => 0x06
  | .Aix => 0x07
  | .Irix => 0x08
  | .FreeBSD => 0x09
  | .OpenBSD => 0x0c
  | .OpenVMS => 0x0d
  | .Standalone => 0xff
  | .Unknown t => t

/-- Rust `Type` from `header.rs` (object file type; named `ElfType` because `Type`
is reserved in Lean). -/
inductive ElfType where
  | None
  | Relocatable
  | Executable
  | SharedObject
  | Core
  | OsSpecific (v : Nat)
  | ProcessorSpecific (v : Nat)
  | Unknown (v : Nat)
deriving DecidableEq, Repr

/-- Rust `impl From<u16> for Type`: `t & 0x00ff` is written `t % 0x100`. -/
def ElfType.ofU16 (v : Nat) : ElfType :=
  if v = 0x0000 then .None
  else if v = 0x0001 then .Relocatable
  else if v = 0x0002 then .Executable
  else if v = 0x0003 then .SharedObject
  else if v = 0x0004 then .Core
  else if 0xfe00 ≤ v ∧ v ≤ 0xfeff then .OsSpecific (v % 0x100)
  else if 0xff00 ≤ v ∧ v ≤ 0xffff then .ProcessorSpecific (v % 0x100)
  else .Unknown v

/-- Rust `impl From<Type> for u16`. -/
def ElfType.toU16 : ElfType → Nat
  | .None => 0x0000
  | .Relocatable => 0x0001
  | .Executable => 0x0002
  | .SharedObject => 0x0003
  | .Core => 0x0004
  | .OsSpecific t => 0xfe00 + t
  | .ProcessorSpecific t => 0xff00 + t
  | .Unknown t => t

/-- Rust `Machine` from `header.rs`. -/
inductive Machine where
  | None
  | Sparc
  | X86
  | Mips
  | PowerPC
  | Arm
  | SuperH
  | Ia64
  | X86_64
  | AArch64
  | BPF
  | Unknown (v : Nat)
deriving DecidableEq, Repr

/-- Rust `impl From<u16> for Machine`. -/
def Machine.ofU16 (v : Nat) : Machine :=
  if v = 0x0000 then .None
  else if v = 0x0002 then .Sparc
  else if v = 0x0003 then .X86
  else if v = 0x0008 then .Mips
  else if v = 0x0014 then .PowerPC
  else if v = 0x0028 then .Arm
  else if v = 0x002a then .SuperH
  else if v = 0x0032 then .Ia64
  else if v = 0x003e then .X86_64
  else if v = 0x00b7 then .AArch64
  else if v = 0x00f7 then .BPF
  else .Unknown v

/-- Rust `impl From<Machine> for u16`. -/
def Machine.toU16 : Machine → Nat
  | .None => 0x0000
  | .Sparc => 0x0002
  | .X86 => 0x0003
  | .Mips => 0x0008
  | .PowerPC => 0x0014
  | .Arm => 0x0028
  | .SuperH => 0x002a
  | .Ia64 => 0x0032
  | .X86_64 => 0x003e
  | .AArch64 => 0x00b7
  | .BPF => 0x00f7
  | .Unknown t => t

/-- Rust `Index` from `section.rs` (special section-index domain).  `t & 0x001f`
is written `t % 0x20` (the masked ranges are 32 values wide). -/
inductive Index where
  | Undefined
  | ProcessorSecific (v : Nat)
  | EnvironmentSpecific (v : Nat)
  | AbsoluteValue
  | Common
  | Regular (v : Nat)
deriving DecidableEq, Repr

/-- Rust `impl From<u16> for Index`. -/
def Index.ofU16 (v : Nat) : Index :=
  if v = 0x0000 then .Undefined
  else if 0xff00 ≤ v ∧ v ≤ 0xff1f then .ProcessorSecific (v % 0x20)
  else if 0xff20 ≤ v ∧ v ≤ 0xff3f then .EnvironmentSpecific (v % 0x20)
  else if v = 0xfff1 then .AbsoluteValue
  else if v = 0xfff2 then .Common
  else .Regular v

/-- Rust `impl From<Index> for u16`. -/
def Index.toU16 : Index → Nat
  | .Undefined => 0x0000
  | .ProcessorSecific t => 0xff00 + t % 0x20
  | .EnvironmentSpecific t => 0xff20 + t % 0x20
  | .AbsoluteValue => 0xfff1
  | .Common => 0xfff2
  | .Regular t => t

/-- Rust `ProgramType` from `program.rs` (`ProcessorSprcific` spelled as in the
source). -/
inductive ProgramType where
  | Null
  | Load
  | Dynamic
  | Interpreter
  | Note
  | Shlib
  | ProgramHeaderTable
  | OsSpecific (v : Nat)
  | ProcessorSprcific (v : Nat)
  | Unknown (v : Nat)
deriving DecidableEq, Repr

/-- Rust `impl From<u32> for ProgramType`: the reserved ranges keep the full code. -/
def ProgramType.ofU32 (v : Nat) : ProgramType :=
  if v = 0 then .Null
  else if v = 1 then .Load
  else if v = 2 then .Dynamic
  else if v = 3 then .Interpreter
  else if v = 4 then .Note
  else if v = 5 then .Shlib
  else if v = 6 then .ProgramHeaderTable
  else if 0x60000000 ≤ v ∧ v ≤ 0x6fffffff then .OsSpecific v
  else if 0x70000000 ≤ v ∧ v ≤ 0x7fffffff then .ProcessorSprcific v
  else .Unknown v

/-- Rust `impl From<ProgramType> for u32`.  The source writes
`0x60000000 + t & 0x0fffffff`; Rust parses `+` before `&`, so this is
`(0x60000000 + t) & 0x0fffffff`, i.e. `(0x60000000 + t) % 0x10000000`
(the mask is the 28 low bits; no `u32` overflow occurs for decoded codes). -/
def ProgramType.toU32 : ProgramType → Nat
  | .Null => 0x00000000
  | .Load => 0x00000001
  | .Dynamic => 0x00000002
  | .Interpreter => 0x00000003
  | .Note => 0x00000004
  | .Shlib => 0x00000005
  | .ProgramHeaderTable => 0x00000006
  | .OsSpecific t => (0x60000000 + t) % 0x10000000
  | .ProcessorSprcific t => (0x70000000 + t) % 0x10000000
  | .Unknown t => t

/-- Rust `SectionType` from `section.rs`. -/
inductive SectionType where
  | Null
  | ProgramBits
  | SymbolTable
  | StringTable
  | Rela
  | Hash
  | Dynamic
  | Note
  | NoBits
  | Rel
  | Shlib
  | DynamicSymbolTable
  | OsSpecific (v : Nat)
  | ProcessorSprcific (v : Nat)
  | Unknown (v : Nat)
deriving DecidableEq, Repr

/-- Rust `impl From<u32> for SectionType`. -/
def SectionType.ofU32 (v : Nat) : SectionType :=
  if v = 0x0 then .Null
  else if v = 0x1 then .ProgramBits
  else if v = 0x2 then .SymbolTable
  else if v = 0x3 then .StringTable
  else if v = 0x4 then .Rela
  else if v = 0x5 then .Hash
  else if v = 0x6 then .Dynamic
  else if v = 0x7 then .Note
  else if v = 0x8 then .NoBits
  else if v = 0x9 then .Rel
  else if v = 0xa then .Shlib
  else if v = 0xb then .DynamicSymbolTable
  else if 0x60000000 ≤ v ∧ v ≤ 0x6fffffff then .OsSpecific v
  else if 0x70000000 ≤ v ∧ v ≤ 0x7fffffff then .ProcessorSprcific v
  else .Unknown v

/-- Rust `impl From<SectionType> for u32`; same Rust precedence reading as
`ProgramType.toU32`. -/
def SectionType.toU32 : SectionType → Nat
  | .Null => 0x00000000
  | .ProgramBits => 0x00000001
  | .SymbolTable => 0x00000002
  | .StringTable => 0x00000003
  | .Rela => 0x00000004
  | .Hash => 0x00000005
  | .Dynamic => 0x00000006
  | .Note => 0x00000007
  | .NoBits => 0x00000008
  | .Rel => 0x00000009
  | .Shlib => 0x0000000a
  | .DynamicSymbolTable => 0x0000000b
  | .OsSpecific t => (0x60000000 + t) % 0x10000000
  | .ProcessorSprcific t => (0x70000000 + t) % 0x10000000
  | .Unknown t => t

/-- Rust `SymbolBinding` from `symbol.rs`. -/
inductive SymbolBinding where
  | Local
  | Global
  | Weak
  | OsSpecific (v : Nat)
  | ProcessorSpecific (v : Nat)
  | Unknown (v : Nat)
deriving DecidableEq, Repr

/-- Rust `SymbolType` from `symbol.rs`. -/
inductive SymbolType where
  | Nothing
  | Object
  | Function
  | Section
  | File
  | OsSpecific (v : Nat)
  | ProcessorSpecific (v : Nat)
  | Unknown (v : Nat)
deriving DecidableEq, Repr

/-- Rust `SymbolInfo` from `symbol.rs`: binding and type packed in one byte. -/
structure SymbolInfo where
  binding : SymbolBinding
  type_ : SymbolType
deriving DecidableEq, Repr

/-- Rust `impl From<u8> for SymbolInfo`: for a byte `v`, `(v & 0xf0) / 0x10`
is written `v % 0x100 / 0x10` and `v & 0x0f` is written `v % 0x10`. -/
def SymbolInfo.ofU8 (v : Nat) : SymbolInfo :=
  { binding :=
      let t := v % 0x100 / 0x10
      if t = 0x00 then .Local
      else if t = 0x01 then .Global
      else if t = 0x02 then .Weak
      else if 0x0a ≤ t ∧ t ≤ 0x0c then .OsSpecific (t - 0x0a)
      else if 0x0d ≤ t ∧ t ≤ 0x0f then .ProcessorSpecific (t - 0x0d)
      else .Unknown t,
    type_ :=
      let t := v % 0x10
      if t = 0x00 then .Nothing
      else if t = 0x01 then .Object
      else if t = 0x02 then .Function
      else if t = 0x03 then .Section
      else if t = 0x04 then .File
      else if 0x0a ≤ t ∧ t ≤ 0x0c then .OsSpecific (t - 0x0a)
      else if 0x0d ≤ t ∧ t ≤ 0x0f then .ProcessorSpecific (t - 0x0d)
      else .Unknown t }

/-- Rust `impl From<SymbolInfo> for u8`. -/
def SymbolInfo.toU8 (v : SymbolInfo) : Nat :=
  let high := match v.binding with
    | .Local => 0x00
    | .Global => 0x01
    | .Weak => 0x02
    | .OsSpecific t => t + 0x0a
    | .ProcessorSpecific t => t + 0x0d
    | .Unknown t => t
  let low := match v.type_ with
    | .Nothing => 0x00
    | .Object => 0x01
    | .Function => 0x02
    | .Section => 0x03
    | .File => 0x04
    | .OsSpecific t => t + 0x0a
    | .ProcessorSpecific t => t + 0x0d
    | .Unknown t => t
  high * 0x10 + low

/-- Rust `Identifier` from `header.rs` (`class` is reserved-ish in Lean, so
the field is `class_`). -/
structure Identifier where
  class_ : Class
  encoding : Encoding
  version : Nat
  abi : Abi
  abi_version : Nat
deriving DecidableEq, Repr

/-- Rust `Identifier::new` from `header.rs`.  Every caller in the crate hands
it exactly the 16-byte prefix produced by `&slice[0x00..0x10]` (whose own
bounds panic is modelled at the call site in `Header.new`), so the byte
indexing here is written with `getD`. -/
def Identifier.new (slice : List Nat) : Except Error Identifier :=
  if ¬ (slice.getD 0x00 0 = 0x7f ∧ sub slice 0x01 0x04 = [0x45, 0x4c, 0x46]) then
    .error .WrongMagicNumber
  else
    match Encoding.tryFromU8 (slice.getD 0x05 0) with
    | .error t => .error (.UnknownEncoding t)
    | .ok enc =>
      .ok { class_ := Class.ofU8 (slice.getD 0x04 0)
            encoding := enc
            version := slice.getD 0x06 0
            abi := Abi.ofU8 (slice.getD 0x07 0)
            abi_version := slice.getD 0x08 0 }

/-- Modelled from the spec: the bitflags types (`Flags` in `section.rs`,
`SectionFlags`/`ProgramFlags` re-exported by `lib.rs`) are generated by the
`bitflags` macro in a file missing from `src/`.  Spec section 3 names three
known bits (write/alloc/exec-instructions for sections, execute/write/read
for segments), so `from_bits_truncate` keeps the three low bits.  No claim
inspects flag values. -/
def Flags.fromBitsTruncate (v : Nat) : Nat :=
  v % 8

/-- Rust `ProgramHeader` from `program.rs`. -/
structure ProgramHeader where
  type_ : ProgramType
  flags : Nat
  file_offset : Nat
  virtual_address : Nat
  physical_address : Nat
  file_size : Nat
  memory_size : Nat
  address_alignment : Nat
deriving DecidableEq, Repr

/-- Rust `ProgramHeader::SIZE`. -/
def ProgramHeader.SIZE : Nat := 0x38

/-- Rust `ProgramHeader::new` (`impl Entry for ProgramHeader`) from
`program.rs`; the two endianness match arms are both expressed through
`readAt`. -/
def ProgramHeader.new (slice : List Nat) (encoding : Encoding) :
    Except Error ProgramHeader :=
  if slice.length < ProgramHeader.SIZE then .error .SliceTooShort
  else .ok {
    type_ := ProgramType.ofU32 (readAt encoding slice 0x00 0x04)
    flags := readAt encoding slice 0x04 0x08
    file_offset := readAt encoding slice 0x08 0x10
    virtual_address := readAt encoding slice 0x10 0x18
    physical_address := readAt encoding slice 0x18 0x20
    file_size := readAt encoding slice 0x20 0x28
    memory_size := readAt encoding slice 0x28 0x30
    address_alignment := readAt encoding slice 0x30 0x38 }

/-- Rust `SectionHeader` from `section.rs` (bytes 0x0c..0x10 of the record are
ignored by the decoder, as the source warns). -/
structure SectionHeader where
  name : Nat
  type_ : SectionType
  flags : Nat
  address : Nat
  offset : Nat
  size : Nat
  link : SectionType
  info : SectionType
  address_alignment : Nat
  number_of_entries : Nat
deriving DecidableEq, Repr

/-- Rust `SectionHeader::SIZE`. -/
def SectionHeader.SIZE : Nat := 0x40

/-- Rust `SectionHeader::new` (`impl Entry for SectionHeader`) from
`section.rs`. -/
def SectionHeader.new (slice : List Nat) (encoding : Encoding) :
    Except Error SectionHeader :=
  if slice.length < SectionHeader.SIZE then .error .SliceTooShort
  else .ok {
    name := readAt encoding slice 0x00 0x04
    type_ := SectionType.ofU32 (readAt encoding slice 0x04 0x08)
    flags := Flags.fromBitsTruncate (readAt encoding slice 0x08 0x0c)
    address := readAt encoding slice 0x10 0x18
    offset := readAt encoding slice 0x18 0x20
    size := readAt encoding slice 0x20 0x28
    link := SectionType.ofU32 (readAt encoding slice 0x28 0x2c)
    info := SectionType.ofU32 (readAt encoding slice 0x2c 0x30)
    address_alignment := readAt encoding slice 0x30 0x38
    number_of_entries := readAt encoding slice 0x38 0x40 }

/-- Rust `SymbolEntry` from `symbol.rs`. -/
structure SymbolEntry where
  name : Nat
  info : SymbolInfo
  reserved : Nat
  section_index : Index
  value : Nat
  size : Nat
deriving DecidableEq, Repr

/-- Rust `SymbolEntry::SIZE`. -/
def SymbolEntry.SIZE : Nat := 0x18

/-- Rust `SymbolEntry::new` from `symbol.rs`: length guard, then the
reserved-byte-at-0x05 guard, then field reads. -/
def SymbolEntry.new (slice : List Nat) (encoding : Encoding) :
    Except Error SymbolEntry :=
  if slice.length < SymbolEntry.SIZE then .error .SliceTooShort
  else if slice.getD 0x05 0 ≠ 0x00 then .error .ReservedFieldIsNotZero
  else .ok {
    name := readAt encoding slice 0x00 0x04
    info := SymbolInfo.ofU8 (slice.getD 0x04 0)
    reserved := 0
    section_index := Index.ofU16 (readAt encoding slice 0x06 0x08)
    value := readAt encoding slice 0x08 0x10
    size := readAt encoding slice 0x10 0x18 }

/-- Two's-complement reading of a 64-bit unsigned value as `i64`
(`read_i64`). -/
def toI64 (n : Nat) : Int :=
  if n < 2 ^ 63 then (n : Int) else (n : Int) - 2 ^ 64

/-- Rust `RelEntry` from `rel_rela.rs`. -/
structure RelEntry where
  address : Nat
  symbol_index : Nat
  relocation_type : Nat
deriving DecidableEq, Repr

/-- Rust `RelEntry::SIZE`. -/
def RelEntry.SIZE : Nat := 0x10

/-- Rust `RelEntry::new` (`impl Entry for RelEntry`) from `rel_rela.rs`:
`temp & 0xffffffff` is written `temp % 0x100000000`. -/
def RelEntry.new (slice : List Nat) (encoding : Encoding) :
    Except Error RelEntry :=
  if slice.length < RelEntry.SIZE then .error .SliceTooShort
  else
    let temp := readAt encoding slice 0x08 0x10
    .ok {
      address := readAt encoding slice 0x00 0x08
      symbol_index := temp / 0x100000000
      relocation_type := temp % 0x100000000 }

/-- Rust `RelaEntry` from `rel_rela.rs`. -/
structure RelaEntry where
  address : Nat
  symbol_index : Nat
  relocation_type : Nat
  addend : Int
deriving DecidableEq, Repr

/-- Rust `RelaEntry::SIZE`. -/
def RelaEntry.SIZE : Nat := 0x18

/-- Rust `RelaEntry::new` (`impl Entry for RelaEntry`) from `rel_rela.rs`. -/
def RelaEntry.new (slice : List Nat) (encoding : Encoding) :
    Except Error RelaEntry :=
  if slice.length < RelaEntry.SIZE then .error .SliceTooShort
  else
    let temp := readAt encoding slice 0x08 0x10
    .ok {
      address := readAt encoding slice 0x00 0x08
      symbol_index := temp / 0x100000000
      relocation_type := temp % 0x100000000
      addend := toI64 (readAt encoding slice 0x10 0x18) }

/-- Rust `Header` from `header.rs`. -/
structure Header where
  identifier : Identifier
  type_ : ElfType
  machine : Machine
  format_version : Nat
  entry : Nat
  program_headers_offset : Nat
  section_headers_offset : Nat
  flags : Nat
  program_header_number : Nat
  section_header_number : Nat
  section_names : Index
deriving DecidableEq, Repr

/-- Rust `Header::SIZE`. -/
def Header.SIZE : Nat := 0x40

/-- Rust `Header::new` from `header.rs`.  The source performs NO length check
of its own: it immediately slices `&slice[0x00..0x10]`, later
`&slice[0x34..0x36]` etc., each of which panics in Rust when the slice is too
short — those panics are the explicit `.panicked` branches here.  A single
`slice.length < 0x40` test stands for the panics of the remaining in-order
field reads (whose largest end offset is 0x40); the three size checks and
their distinct `UnexpectedSize` errors come first, exactly as in the source.
The duplicated little/big match arms are expressed through `readAt`. -/
def Header.new (slice : List Nat) : ROut Header :=
  if slice.length < 0x10 then .panicked
  else
    match Identifier.new (sub slice 0x00 0x10) with
    | .error e => .err e
    | .ok identifier =>
      let e := identifier.encoding
      if slice.length < 0x36 then .panicked
      else if readAt e slice 0x34 0x36 ≠ Header.SIZE then
        .err (.UnexpectedSize .Header)
      else if slice.length < 0x38 then .panicked
      else if readAt e slice 0x36 0x38 ≠ ProgramHeader.SIZE then
        .err (.UnexpectedSize .ProgramHeader)
      else if slice.length < 0x3c then .panicked
      else if readAt e slice 0x3a 0x3c ≠ SectionHeader.SIZE then
        .err (.UnexpectedSize .SectionHeader)
      else if slice.length < 0x40 then .panicked
      else .ok {
        identifier := identifier
        type_ := ElfType.ofU16 (readAt e slice 0x10 0x12)
        machine := Machine.ofU16 (readAt e slice 0x12 0x14)
        format_version := readAt e slice 0x14 0x18
        entry := readAt e slice 0x18 0x20
        program_headers_offset := readAt e slice 0x20 0x28
        section_headers_offset := readAt e slice 0x28 0x30
        flags := readAt e slice 0x30 0x34
        program_header_number := readAt e slice 0x38 0x3a
        section_header_number := readAt e slice 0x3c 0x3e
        section_names := Index.ofU16 (readAt e slice 0x3e 0x40) }

/-- Rust trait `Entry` from `table.rs`: a record size and a decoder. -/
structure Entry (α : Type) where
  SIZE : Nat
  new : List Nat → Encoding → Except Error α

/-- Rust `Table::pick` from `table.rs`.  A `Table` owns its region slice and
encoding; they are passed explicitly here. -/
def Table.pick {α : Type} (E : Entry α) (slice : List Nat) (encoding : Encoding)
    (index : Nat) : Except Error α :=
  let start := index * E.SIZE
  if slice.length < start then .error .SliceTooShort
  else
    let slice2 := slice.drop start
    if slice2.length < E.SIZE then .error .SliceTooShort
    else E.new (slice2.take E.SIZE) encoding

/-- Rust `Table::length` (used by the facade's `program_number` and
`section_number`). -/
def Table.length {α : Type} (E : Entry α) (slice : List Nat) : Nat :=
  slice.length / E.SIZE

/-- Rust `impl Entry for ProgramHeader` packaged as a first-class value. -/
def ProgramHeader.entry : Entry ProgramHeader :=
  { SIZE := ProgramHeader.SIZE, new := ProgramHeader.new }

/-- Rust `impl Entry for SectionHeader` packaged as a first-class value. -/
def SectionHeader.entry : Entry SectionHeader :=
  { SIZE := SectionHeader.SIZE, new := SectionHeader.new }

/-- Rust `impl Entry for SymbolEntry` packaged as a first-class value. -/
def SymbolEntry.entry : Entry SymbolEntry :=
  { SIZE := SymbolEntry.SIZE, new := SymbolEntry.new }

/-- Rust `impl Entry for RelEntry` packaged as a first-class value. -/
def RelEntry.entry : Entry RelEntry :=
  { SIZE := RelEntry.SIZE, new := RelEntry.new }

/-- Rust `impl Entry for RelaEntry` packaged as a first-class value. -/
def RelaEntry.entry : Entry RelaEntry :=
  { SIZE := RelaEntry.SIZE, new := RelaEntry.new }

/-- UTF-8 continuation byte (`0x80..=0xbf`). -/
def utf8Cont (b : Nat) : Bool :=
  0x80 ≤ b && b ≤ 0xbf

/-- Constraint on the second byte of a three-byte UTF-8 sequence whose first
byte is `b` (`0xe0..=0xef`): per RFC 3629, `0xe0` narrows it to
`0xa0..=0xbf` and `0xed` to `0x80..=0x9f` (excluding surrogates). -/
def utf8Seq3Second (b b1 : Nat) : Bool :=
  if b = 0xe0 then 0xa0 ≤ b1 && b1 ≤ 0xbf
  else if b = 0xed then 0x80 ≤ b1 && b1 ≤ 0x9f
  else utf8Cont b1

/-- Constraint on the second byte of a four-byte UTF-8 sequence whose first
byte is `b` (`≥ 0xf0`): `0xf0` narrows it to `0x90..=0xbf`, `0xf4` to
`0x80..=0x8f`, and first bytes above `0xf4` are invalid. -/
def utf8Seq4Second (b b1 : Nat) : Bool :=
  if b = 0xf0 then 0x90 ≤ b1 && b1 ≤ 0xbf
  else if b = 0xf4 then 0x80 ≤ b1 && b1 ≤ 0x8f
  else if b ≤ 0xf3 then utf8Cont b1
  else false

/-- UTF-8 well-formedness of a byte sequence, as checked by Rust's
`core::str::from_utf8` (RFC 3629: no overlong forms, no surrogates, max
`U+10FFFF`). -/
def utf8Valid : List Nat → Bool
  | [] => true
  | b :: rest =>
    if b ≤ 0x7f then utf8Valid rest
    else if b < 0xc2 then false
    else
      match rest with
      | [] => false
      | b1 :: rest1 =>
        if b ≤ 0xdf then utf8Cont b1 && utf8Valid rest1
        else
          match rest1 with
          | [] => false
          | b2 :: rest2 =>
            if b ≤ 0xef then
              utf8Seq3Second b b1 && utf8Cont b2 && utf8Valid rest2
            else
              match rest2 with
              | [] => false
              | b3 :: rest3 =>
                utf8Seq4Second b b1 && utf8Cont b2 && utf8Cont b3 &&
                  utf8Valid rest3

/-- Rust `core::str::from_utf8`: a `&str` is modelled as its byte sequence,
so success returns the same bytes; failure is the `Utf8Error` kind (its
payload is not carried). -/
def fromUtf8 (l : List Nat) : Except Error (List Nat) :=
  if utf8Valid l then .ok l else .error .Utf8Error

/-- Rust `StringTable::pick`'s scan loop from `string_note.rs`, expressed as
structural recursion over the suffix `slice[index + length ..]`: an empty
suffix is the loop's `index + length >= self.slice.len()` failure
(`NotEnoughData` in the source, the truncation kind), and the head byte is
`slice[index + length]`.  `MAX_LENGTH` is 0xff. -/
def StringTable.pickLenGo : List Nat → Nat → Except Error Nat
  | [], _ => .error .SliceTooShort
  | b :: rest, length =>
    if b = 0 ∨ length = 0xff then .ok length
    else StringTable.pickLenGo rest (length + 1)

/-- Rust `StringTable::pick` from `string_note.rs`: scan for the terminating
zero (capped), then UTF-8-decode `&slice[index..index + length]`. -/
def StringTable.pick (slice : List Nat) (index : Nat) :
    Except Error (List Nat) :=
  match StringTable.pickLenGo (slice.drop index) 0 with
  | .error e => .error e
  | .ok length => fromUtf8 ((slice.drop index).take length)

/-- Rust `NoteEntry` from `string_note.rs` (`name: &str` modelled as bytes). -/
structure NoteEntry where
  type_ : Nat
  name : List Nat
  description : List Nat
deriving DecidableEq, Repr

/-- Rust closure `align8` inside `NoteTable::next`. -/
def align8 (x : Nat) : Nat :=
  if x % 8 = 0 then x else x + 8 - x % 8

/-- Rust `NoteTable::next` from `string_note.rs`.  The `&mut usize` cursor is
modelled by returning the final cursor alongside the result: error branches
return the cursor unchanged, the success branch returns `new_position`.
Note that the source really reads the 24-byte sub-header at the FIXED
offsets `0x00..0x18` of the region (`self.slice[0x00..0x08]` etc.), not at
`position`; only the bounds checks and the name/description ranges use
`position`.  This embedding reproduces that literally. -/
def NoteTable.next (slice : List Nat) (encoding : Encoding) (position : Nat) :
    Except Error NoteEntry × Nat :=
  if slice.length < position + 0x18 then (.error .SliceTooShort, position)
  else
    let name_size := readAt encoding slice 0x00 0x08
    let description_size0 := readAt encoding slice 0x08 0x10
    let type_ := readAt encoding slice 0x10 0x18
    let name_size_aligned := align8 name_size
    let description_size := align8 description_size0
    let new_position := position + 0x18 + name_size_aligned + description_size
    if slice.length < new_position then (.error .SliceTooShort, position)
    else
      let str_start := position + 0x18
      let str_end := str_start + name_size
      match fromUtf8 (sub slice str_start str_end) with
      | .error e => (.error e, position)
      | .ok name =>
        (.ok { type_ := type_, name := name
               description := sub slice str_end new_position },
         new_position)

/-- Rust `Elf64` from `lib.rs`: the whole-file buffer, the parsed header, the
program/section table regions, and the optional section-name string-table
region.  (Table views own a region plus the encoding; the encoding always
equals `header.identifier.encoding`, so only the regions are stored.) -/
structure Elf64 where
  raw : List Nat
  header : Header
  program_table : List Nat
  section_table : List Nat
  names : Option (List Nat)
deriving DecidableEq, Repr

/-- Rust `Elf64::encoding`. -/
def Elf64.encoding (elf : Elf64) : Encoding :=
  elf.header.identifier.encoding

/-- Rust `ProgramData` from `lib.rs` (table/note payloads carry their region
and encoding). -/
inductive ProgramData where
  | Null
  | Load (data : List Nat) (address : Nat)
  | Interpreter (path : List Nat)
  | Note (slice : List Nat) (encoding : Encoding)
  | OsSpecific (code : Nat) (data : List Nat) (address : Nat)
  | ProcessorSprcific (code : Nat) (data : List Nat) (address : Nat)
  | Unknown (code : Nat) (data : List Nat) (address : Nat)
deriving DecidableEq, Repr

/-- Rust `Program` from `lib.rs` (flags kept as the raw integer carried by
the program header record). -/
structure Program where
  data : ProgramData
  flags : Nat
  memory_size : Nat
  address_alignment : Nat
deriving DecidableEq, Repr

/-- Rust `Elf64::program` from `lib.rs`.  The `Dynamic` arm is
`unimplemented!("dynamic linking table")` in the source — a panic, modelled
as `.panicked`. -/
def Elf64.program (elf : Elf64) (index : Nat) : ROut (Option Program) :=
  match Table.pick ProgramHeader.entry elf.program_table elf.encoding index with
  | .error e => .err e
  | .ok program_header =>
    let start := program_header.file_offset
    let stop := start + program_header.file_size
    if elf.raw.length < stop then .err .SliceTooShort
    else
      let slice := sub elf.raw start stop
      let dataR : ROut (Option ProgramData) :=
        match program_header.type_ with
        | .Null => .ok none
        | .Load => .ok (some (.Load slice program_header.virtual_address))
        | .Dynamic => .panicked
        | .Interpreter =>
          match fromUtf8 slice with
          | .error e => .err e
          | .ok path => .ok (some (.Interpreter path))
        | .Note => .ok (some (.Note slice elf.encoding))
        | .Shlib => .ok none
        | .ProgramHeaderTable => .ok none
        | .OsSpecific code =>
          .ok (some (.OsSpecific code slice program_header.virtual_address))
        | .ProcessorSprcific code =>
          .ok (some (.ProcessorSprcific code slice
            program_header.virtual_address))
        | .Unknown code =>
          .ok (some (.Unknown code slice program_header.virtual_address))
      match dataR with
      | .panicked => .panicked
      | .err e => .err e
      | .ok data =>
        .ok (data.map fun d =>
          { data := d
            flags := program_header.flags
            memory_size := program_header.memory_size
            address_alignment := program_header.address_alignment })

/-- Rust `SectionData` from `lib.rs`. -/
inductive SectionData where
  | Null
  | ProgramBits (data : List Nat)
  | SymbolTable (table : List Nat) (encoding : Encoding)
      (number_of_locals : Nat)
  | StringTable (data : List Nat)
  | Rela (table : List Nat) (encoding : Encoding) (apply_to_section : Index)
  | Note (slice : List Nat) (encoding : Encoding)
  | Rel (table : List Nat) (encoding : Encoding) (apply_to_section : Index)
  | DynamicSymbolTable (table : List Nat) (encoding : Encoding)
      (number_of_locals : Nat)
  | OsSpecific (code : Nat) (data : List Nat)
  | ProcessorSprcific (code : Nat) (data : List Nat)
  | Unknown (code : Nat) (data : List Nat)
deriving DecidableEq, Repr

/-- Rust `Section` from `lib.rs`.  This source snapshot decodes the header's
`link`/`info` fields as `SectionType` (`section.rs`) while `lib.rs` treats
them as integers; the integer value is recovered via `SectionType.toU32`
where `lib.rs` casts, and `link` is carried through as decoded. -/
structure Section where
  data : SectionData
  name : List Nat
  flags : Nat
  address : Nat
  address_alignment : Nat
  link : SectionType
deriving DecidableEq, Repr

/-- Rust `Elf64::section` from `lib.rs`.  The `Hash` and `Dynamic` arms are
`unimplemented!(..)` in the source — panics, modelled as `.panicked`; the
section-name lookup happens after the payload dispatch, as in the source. -/
def Elf64.section (elf : Elf64) (index : Nat) : ROut (Option Section) :=
  match Table.pick SectionHeader.entry elf.section_table elf.encoding index with
  | .error e => .err e
  | .ok sh =>
    let start := sh.offset
    let stop := start + sh.size
    if elf.raw.length < stop then .err .SliceTooShort
    else
      let slice := sub elf.raw start stop
      let dataR : ROut (Option SectionData) :=
        match sh.type_ with
        | .Null => .ok none
        | .ProgramBits => .ok (some (.ProgramBits slice))
        | .SymbolTable =>
          .ok (some (.SymbolTable slice elf.encoding (SectionType.toU32 sh.info)))
        | .StringTable => .ok (some (.StringTable slice))
        | .Rela =>
          .ok (some (.Rela slice elf.encoding
            (Index.ofU16 (SectionType.toU32 sh.info % 0x10000))))
        | .Hash => .panicked
        | .Dynamic => .panicked
        | .Note => .ok (some (.Note slice elf.encoding))
        | .NoBits => .ok none
        | .Rel =>
          .ok (some (.Rel slice elf.encoding
            (Index.ofU16 (SectionType.toU32 sh.info % 0x10000))))
        | .Shlib => .ok none
        | .DynamicSymbolTable =>
          .ok (some (.DynamicSymbolTable slice elf.encoding
            (SectionType.toU32 sh.info)))
        | .OsSpecific code => .ok (some (.OsSpecific code slice))
        | .ProcessorSprcific code => .ok (some (.ProcessorSprcific code slice))
        | .Unknown code => .ok (some (.Unknown code slice))
      match dataR with
      | .panicked => .panicked
      | .err e => .err e
      | .ok data =>
        let nameR : Except Error (List Nat) :=
          match elf.names with
          | some table => StringTable.pick table sh.name
          | none => .ok []
        match nameR with
        | .error e => .err e
        | .ok name =>
          .ok (data.map fun d =>
            { data := d
              name := name
              flags := sh.flags
              address := sh.address
              address_alignment := sh.address_alignment
              link := sh.link })

/-- Rust `Elf64::new` from `lib.rs` (with `Header::program_header_table` and
`Header::section_header_table` from `header.rs` inlined at their unique call
sites).  `u64` offsets cast `as usize` are identities here (64-bit target).
The section-name region slice `&raw[start..end]` in the source is NOT
length-checked, hence the `subP`/panic modelling for it. -/
def Elf64.new (raw : List Nat) : ROut Elf64 :=
  if raw.length < Header.SIZE then .err .SliceTooShort
  else
    match Header.new (sub raw 0 Header.SIZE) with
    | .panicked => .panicked
    | .err e => .err e
    | .ok header =>
      let startP := header.program_headers_offset
      let stopP := startP + header.program_header_number * ProgramHeader.SIZE
      if raw.length < stopP then .err .SliceTooShort
      else
        let program_table := sub raw startP stopP
        let startS := header.section_headers_offset
        let stopS := startS + header.section_header_number * SectionHeader.SIZE
        if raw.length < stopS then .err .SliceTooShort
        else
          let section_table := sub raw startS stopS
          let namesR : ROut (Option (List Nat)) :=
            match header.section_names with
            | .Regular i =>
              match Table.pick SectionHeader.entry section_table
                  header.identifier.encoding i with
              | .error e => .err e
              | .ok ns =>
                match ns.type_ with
                | .StringTable =>
                  match subP raw ns.offset (ns.offset + ns.size) with
                  | none => .panicked
                  | some region => .ok (some region)
                | _ => .ok none
            | _ => .ok none
          match namesR with
          | .panicked => .panicked
          | .err e => .err e
          | .ok names =>
            .ok { raw := raw, header := header
                  program_table := program_table
                  section_table := section_table
                  names := names }

/-- Specification-side restatement of `StringTable::pick`, written from the
behaviour the code actually has (the amended C3 contract): with
`k` the length of the maximal zero-free prefix at `index`, return the exact
bytes up to (excluding) the first zero byte when one occurs (`k < 0xff` and
the prefix stops inside the region), return the capped `0xff`-byte prefix
when the first `0xff` bytes are all non-zero and at least one byte follows
them, and fail with the truncation kind when the region ends first; the
returned bytes are UTF-8 validated. -/
def StringTable.pickSpec (slice : List Nat) (index : Nat) :
    Except Error (List Nat) :=
  let tail := slice.drop index
  let k := (tail.takeWhile (fun b => b != 0)).length
  if k < 0xff then
    if k < tail.length then fromUtf8 (tail.take k)
    else .error .SliceTooShort
  else
    if 0xff < tail.length then fromUtf8 (tail.take 0xff)
    else .error .SliceTooShort

/-- Test region for note iteration (the spec's own scenario): two
back-to-back little-endian note records, name lengths 4 and 7, description
lengths 0 and 3.  Record one occupies bytes 0..32 (24-byte sub-header, name
"GNU\0" padded to 8, empty description), record two bytes 32..72 (24-byte
sub-header, 7-byte name "ABCDEF\0" padded to 8, 3-byte description
`aa bb cc` padded to 8). -/
def noteRegionTwo : List Nat :=
  [0x04, 0, 0, 0, 0, 0, 0, 0,
   0x00, 0, 0, 0, 0, 0, 0, 0,
   0x01, 0, 0, 0, 0, 0, 0, 0,
   0x47, 0x4e, 0x55, 0x00, 0, 0, 0, 0,
   0x07, 0, 0, 0, 0, 0, 0, 0,
   0x03, 0, 0, 0, 0, 0, 0, 0,
   0x02, 0, 0, 0, 0, 0, 0, 0,
   0x41, 0x42, 0x43, 0x44, 0x45, 0x46, 0x00, 0,
   0xaa, 0xbb, 0xcc, 0, 0, 0, 0, 0]

/-- Test region holding one little-endian note record with name length 4
("GNU\0", padded to 8) and description length 3 (`aa bb cc`, padded to 8):
24 + 8 + 8 = 40 bytes. -/
def noteRegionPadded : List Nat :=
  [0x04, 0, 0, 0, 0, 0, 0, 0,
   0x03, 0, 0, 0, 0, 0, 0, 0,
   0x01, 0, 0, 0, 0, 0, 0, 0,
   0x47, 0x4e, 0x55, 0x00, 0, 0, 0, 0,
   0xaa, 0xbb, 0xcc, 0, 0, 0, 0, 0]

/-- A complete little-endian ELF64 image: a valid 0x40-byte header declaring
one program header at offset 0x40 and no sections, followed by one 0x38-byte
program header of type 2 (`Dynamic`) with zero file offset and size. -/
def elfBufDynamic : List Nat :=
  [0x7f, 0x45, 0x4c, 0x46, 0x02, 0x01, 0x01, 0x00,
   0, 0, 0, 0, 0, 0, 0, 0,
   0x02, 0x00, 0x3e, 0x00, 0x01, 0x00, 0x00, 0x00,
   0, 0, 0, 0, 0, 0, 0, 0,
   0x40, 0, 0, 0, 0, 0, 0, 0,
   0, 0, 0, 0, 0, 0, 0, 0,
   0, 0, 0, 0, 0x40, 0x00, 0x38, 0x00,
   0x01, 0x00, 0x40, 0x00, 0x00, 0x00, 0x00, 0x00,
   0x02, 0, 0, 0, 0, 0, 0, 0,
   0, 0, 0, 0, 0, 0, 0, 0,
   0, 0, 0, 0, 0, 0, 0, 0,
   0, 0, 0, 0, 0, 0, 0, 0,
   0, 0, 0, 0, 0, 0, 0, 0,
   0, 0, 0, 0, 0, 0, 0, 0,
   0, 0, 0, 0, 0, 0, 0, 0]

/-- The `Elf64` value that `Elf64.new elfBufDynamic` produces. -/
def elfDynamic : Elf64 :=
  { raw := elfBufDynamic
    header :=
      { identifier :=
          { class_ := ._64, encoding := .Little, version := 1
            abi := .SystemV, abi_version := 0 }
        type_ := .Executable
        machine := .X86_64
        format_version := 1
        entry := 0
        program_headers_offset := 0x40
        section_headers_offset := 0
        flags := 0
        program_header_number := 1
        section_header_number := 0
        section_names := .Undefined }
    program_table :=
      [0x02, 0, 0, 0, 0, 0, 0, 0,
       0, 0, 0, 0, 0, 0, 0, 0,
       0, 0, 0, 0, 0, 0, 0, 0,
       0, 0, 0, 0, 0, 0, 0, 0,
       0, 0, 0, 0, 0, 0, 0, 0,
       0, 0, 0, 0, 0, 0, 0, 0,
       0, 0, 0, 0, 0, 0, 0, 0]
    section_table := []
    names := none }

/-- The program header record carried by `elfDynamic` (type 2, `Dynamic`). -/
def programHeaderDynamic : ProgramHeader :=
  { type_ := .Dynamic, flags := 0, file_offset := 0, virtual_address := 0
    physical_address := 0, file_size := 0, memory_size := 0
    address_alignment := 0 }

/-- A complete little-endian ELF64 image: a valid header declaring no
program headers and one section header at offset 0x40, followed by one
0x40-byte section header of type 5 (`Hash`) with zero offset and size. -/
def elfBufHash : List Nat :=
  [0x7f, 0x45, 0x4c, 0x46, 0x02, 0x01, 0x01, 0x00,
   0, 0, 0, 0, 0, 0, 0, 0,
   0x02, 0x00, 0x3e, 0x00, 0x01, 0x00, 0x00, 0x00,
   0, 0, 0, 0, 0, 0, 0, 0,
   0, 0, 0, 0, 0, 0, 0, 0,
   0x40, 0, 0, 0, 0, 0, 0, 0,
   0, 0, 0, 0, 0x40, 0x00, 0x38, 0x00,
   0x00, 0x00, 0x40, 0x00, 0x01, 0x00, 0x00, 0x00,
   0, 0, 0, 0, 0x05, 0, 0, 0,
   0, 0, 0, 0, 0, 0, 0, 0,
   0, 0, 0, 0, 0, 0, 0, 0,
   0, 0, 0, 0, 0, 0, 0, 0,
   0, 0, 0, 0, 0, 0, 0, 0,
   0, 0, 0, 0, 0, 0, 0, 0,
   0, 0, 0, 0, 0, 0, 0, 0,
   0, 0, 0, 0, 0, 0, 0, 0]

/-- The `Elf64` value that `Elf64.new elfBufHash` produces. -/
def elfHash : Elf64 :=
  { raw := elfBufHash
    header :=
      { identifier :=
          { class_ := ._64, encoding := .Little, version := 1
            abi := .SystemV, abi_version := 0 }
        type_ := .Executable
        machine := .X86_64
        format_version := 1
        entry := 0
        program_headers_offset := 0
        section_headers_offset := 0x40
        flags := 0
        program_header_number := 0
        section_header_number := 1
        section_names := .Undefined }
    program_table := []
    section_table :=
      [0, 0, 0, 0, 0x05, 0, 0, 0,
       0, 0, 0, 0, 0, 0, 0, 0,
       0, 0, 0, 0, 0, 0, 0, 0,
       0, 0, 0, 0, 0, 0, 0, 0,
       0, 0, 0, 0, 0, 0, 0, 0,
       0, 0, 0, 0, 0, 0, 0, 0,
       0, 0, 0, 0, 0, 0, 0, 0,
       0, 0, 0, 0, 0, 0, 0, 0]
    names := none }

/-- The section header record carried by `elfHash` (type 5, `Hash`). -/
def sectionHeaderHash : SectionHeader :=
  { name := 0, type_ := .Hash, flags := 0, address := 0, offset := 0
    size := 0, link := .Null, info := .Null, address_alignment := 0
    number_of_entries := 0 }

/-- A 0x40-byte little-endian header region whose magic, encoding and all
fields are well-formed except that the self-declared header size at offset
0x34 is 0x41 instead of 0x40. -/
def headerBufBadSize : List Nat :=
  [0x7f, 0x45, 0x4c, 0x46, 0x02, 0x01, 0x01, 0x00,
   0, 0, 0, 0, 0, 0, 0, 0,
   0x02, 0x00, 0x3e, 0x00, 0x01, 0x00, 0x00, 0x00,
   0, 0, 0, 0, 0, 0, 0, 0,
   0, 0, 0, 0, 0, 0, 0, 0,
   0, 0, 0, 0, 0, 0, 0, 0,
   0, 0, 0, 0, 0x41, 0x00, 0x38, 0x00,
   0x00, 0x00, 0x40, 0x00, 0x00, 0x00, 0x00, 0x00]

/-- C2.  The decode-then-encode round trip FAILS on the code for program and
section type codes in the reserved ranges: Rust parses the encoder's
`0x60000000 + t & 0x0fffffff` as `(0x60000000 + t) & 0x0fffffff`, so the
OS-specific program type code 0x60000000 decodes to `OsSpecific 0x60000000`
but re-encodes to 0, and the processor-specific section type code 0x70000000
re-encodes to 0.  (The spec's round-trip law demands the original codes
back.) -/
theorem programType_os_range_roundtrip_fails :
    ProgramType.toU32 (ProgramType.ofU32 0x60000000) = 0 ∧
    SectionType.toU32 (SectionType.ofU32 0x70000000) = 0 ∧
    (0 : Nat) ≠ 0x60000000 := by
  refine ⟨by decide, by decide, by decide⟩

/-- C1.  Note iteration over the spec's two-note region (name lengths 4 and
7, description lengths 0 and 3): the first `next` advances the cursor 0 → 32
as the claim states, but the second call advances 32 → 64 (again
24 + align8(4) + align8(0) = 32 bytes) instead of the claimed
24 + align8(7) + align8(3) = 40, because `NoteTable::next` reads the 24-byte
sub-header at the fixed region offsets 0x00..0x18 rather than at
`*position`: the entry returned by the second call re-uses the first
record's lengths (a 4-byte name view).  The third call, at cursor 64, does
fail with the truncation kind. -/
theorem noteTable_next_ignores_position :
    (NoteTable.next noteRegionTwo .Little 0).2 = 32 ∧
    (NoteTable.next noteRegionTwo .Little 32).2 = 64 ∧
    (NoteTable.next noteRegionTwo .Little 32).1 =
      .ok { type_ := 1, name := [0x41, 0x42, 0x43, 0x44]
            description := [0x45, 0x46, 0x00, 0x00] } ∧
    (NoteTable.next noteRegionTwo .Little 64).1 = .error .SliceTooShort := by
  refine ⟨rfl, rfl, rfl, rfl⟩

/-- C5.  On a successful `next` over a single note with name length 4 and
description length 3, the returned name is the exact 4 declared bytes, but
the returned description is NOT the declared 3 bytes: it is the 12-byte
range from the end of the unpadded name to the end of the padded record
(name padding + description + description padding), because the source takes
`description = &slice[str_end..new_position]` with `str_end` the unpadded
name end and `new_position` the padded total. -/
theorem noteTable_next_description_padded :
    (NoteTable.next noteRegionPadded .Little 0).1 =
      .ok { type_ := 1, name := [0x47, 0x4e, 0x55, 0x00]
            description := [0, 0, 0, 0, 0xaa, 0xbb, 0xcc, 0, 0, 0, 0, 0] } ∧
    ([0, 0, 0, 0, 0xaa, 0xbb, 0xcc, 0, 0, 0, 0, 0] : List Nat).length ≠ 3 := by
  refine ⟨rfl, by decide⟩

/-- C9.  On any 0x18-byte symbol record whose byte 0x05 is non-zero,
`SymbolEntry::new` fails with the reserved-field error, for both encodings
and regardless of every other byte. -/
theorem symbolEntry_reserved_nonzero (slice : List Nat) (e : Encoding)
    (hlen : slice.length = 0x18) (hres : slice.getD 0x05 0 ≠ 0) :
    SymbolEntry.new slice e = .error .ReservedFieldIsNotZero := by
  unfold SymbolEntry.new
  rw [hlen]
  simp [SymbolEntry.SIZE]
  simpa using hres

/-- Witness for C9: a concrete all-zero 0x18-byte record with byte 0x05 set
to 1 is rejected with the reserved-field error. -/
theorem symbolEntry_reserved_nonzero_witness :
    SymbolEntry.new ([0, 0, 0, 0, 0, 1] ++ List.replicate 18 0) .Little =
      .error .ReservedFieldIsNotZero :=
  symbolEntry_reserved_nonzero ([0, 0, 0, 0, 0, 1] ++ List.replicate 18 0)
    .Little (by decide) (by decide)

/-- C4 counterexample.  `Header::new` applied directly to a region shorter
than 0x40 bytes does not fail with the truncation error: on the empty region
it panics (the source's very first operation is the unchecked slice
`&slice[0x00..0x10]`). -/
theorem header_new_short_region_panics :
    Header.new ([] : List Nat) = .panicked ∧
    Header.new ([] : List Nat) ≠ .err .SliceTooShort := by
  refine ⟨rfl, by decide⟩

/-- C4 (amended).  Every fixed-size table-record decoder — program header
(0x38), section header (0x40), symbol entry (0x18), rel entry (0x10), rela
entry (0x18) — fails with the truncation error on any shorter region, for
both encodings; `Header::new` alone has no length guard of its own, and any
region shorter than 0x10 bytes makes it panic on the identifier slice
instead of returning the truncation error. -/
theorem record_decoders_reject_short_input :
    (∀ (s : List Nat) (e : Encoding), s.length < 0x38 →
      ProgramHeader.new s e = .error .SliceTooShort) ∧
    (∀ (s : List Nat) (e : Encoding), s.length < 0x40 →
      SectionHeader.new s e = .error .SliceTooShort) ∧
    (∀ (s : List Nat) (e : Encoding), s.length < 0x18 →
      SymbolEntry.new s e = .error .SliceTooShort) ∧
    (∀ (s : List Nat) (e : Encoding), s.length < 0x10 →
      RelEntry.new s e = .error .SliceTooShort) ∧
    (∀ (s : List Nat) (e : Encoding), s.length < 0x18 →
      RelaEntry.new s e = .error .SliceTooShort) ∧
    (∀ s : List Nat, s.length < 0x10 → Header.new s = .panicked) := by
  refine ⟨?_, ?_, ?_, ?_, ?_, ?_⟩
  · intro s e h
    simp [ProgramHeader.new, ProgramHeader.SIZE, h]
  · intro s e h
    simp [SectionHeader.new, SectionHeader.SIZE, h]
  · intro s e h
    simp [SymbolEntry.new, SymbolEntry.SIZE, h]
  · intro s e h
    simp [RelEntry.new, RelEntry.SIZE, h]
  · intro s e h
    simp [RelaEntry.new, RelaEntry.SIZE, h]
  · intro s h
    simp [Header.new, h]

/-- Witness for C4 (amended): each decoder applied to the empty region. -/
theorem record_decoders_reject_short_input_witness :
    ProgramHeader.new [] .Little = .error .SliceTooShort ∧
    SectionHeader.new [] .Big = .error .SliceTooShort ∧
    SymbolEntry.new [] .Little = .error .SliceTooShort ∧
    RelEntry.new [] .Big = .error .SliceTooShort ∧
    RelaEntry.new [] .Little = .error .SliceTooShort ∧
    Header.new [] = .panicked :=
  ⟨record_decoders_reject_short_input.1 [] .Little (by decide),
   record_decoders_reject_short_input.2.1 [] .Big (by decide),
   record_decoders_reject_short_input.2.2.1 [] .Little (by decide),
   record_decoders_reject_short_input.2.2.2.1 [] .Big (by decide),
   record_decoders_reject_short_input.2.2.2.2.1 [] .Little (by decide),
   record_decoders_reject_short_input.2.2.2.2.2 [] (by decide)⟩

/-- C6 counterexample.  A well-formed file whose single segment is of type
`Dynamic`, and one whose single section is of type `Hash`, both construct
successfully, and asking for the corresponding payload PANICS
(`unimplemented!` in the source) instead of returning a "not supported"
error value: the panic outcome is not an `err` of any kind. -/
theorem elf64_unsupported_payload_traps :
    Elf64.new elfBufDynamic = .ok elfDynamic ∧
    Elf64.program elfDynamic 0 = .panicked ∧
    Elf64.new elfBufHash = .ok elfHash ∧
    Elf64.section elfHash 0 = .panicked ∧
    (∀ e : Error, (ROut.panicked : ROut (Option Program)) ≠ .err e) := by
  refine ⟨rfl, rfl, rfl, rfl, fun e h => by cases h⟩

/-- C6 (amended).  Requesting the payload of a recognized but intentionally
unsupported kind — `Elf64::program` on a `Dynamic` segment, or
`Elf64::section` on a `Hash` or `Dynamic` section — always hits the
source's explicit `unimplemented!` panic (the `.panicked` outcome), never a
silent no-op (`ok`) and never a returned error value: the payload is not
parsed and control does not come back to the caller. -/
theorem elf64_unsupported_kind_panics :
    (∀ (elf : Elf64) (i : Nat) (ph : ProgramHeader),
      Table.pick ProgramHeader.entry elf.program_table elf.encoding i =
        .ok ph →
      ph.type_ = .Dynamic →
      ¬ elf.raw.length < ph.file_offset + ph.file_size →
      Elf64.program elf i = .panicked) ∧
    (∀ (elf : Elf64) (i : Nat) (sh : SectionHeader),
      Table.pick SectionHeader.entry elf.section_table elf.encoding i =
        .ok sh →
      (sh.type_ = .Hash ∨ sh.type_ = .Dynamic) →
      ¬ elf.raw.length < sh.offset + sh.size →
      Elf64.section elf i = .panicked) := by
  constructor
  · intro elf i ph hpick htype hbound
    simp [Elf64.program, hpick, htype, hbound]
  · intro elf i sh hpick htype hbound
    rcases htype with h | h <;>
      simp [Elf64.section, hpick, h, hbound]

/-- Witness for C6 (amended): the concrete `Dynamic`-segment and
`Hash`-section files. -/
theorem elf64_unsupported_kind_panics_witness :
    Elf64.program elfDynamic 0 = .panicked ∧
    Elf64.section elfHash 0 = .panicked :=
  ⟨elf64_unsupported_kind_panics.1 elfDynamic 0 programHeaderDynamic rfl rfl
      (by decide),
   elf64_unsupported_kind_panics.2 elfHash 0 sectionHeaderHash rfl
      (Or.inl rfl) (by decide)⟩

/-- C7.  On any 0x40-byte header region whose identifier decodes (so under
either endianness), `Header::new` rejects a mismatch of the three
self-declared record sizes at offsets 0x34/0x36/0x3a against the constants
0x40/0x38/0x40 with the `UnexpectedSize` error naming the mismatching field
(checked in that order), and `UnexpectedSize` is distinct from the
truncation kind. -/
theorem header_new_reports_size_mismatch (slice : List Nat)
    (idf : Identifier) (hlen : slice.length = 0x40)
    (hid : Identifier.new (sub slice 0x00 0x10) = .ok idf) :
    (readAt idf.encoding slice 0x34 0x36 ≠ 0x40 →
      Header.new slice = .err (.UnexpectedSize .Header)) ∧
    (readAt idf.encoding slice 0x34 0x36 = 0x40 →
      readAt idf.encoding slice 0x36 0x38 ≠ 0x38 →
      Header.new slice = .err (.UnexpectedSize .ProgramHeader)) ∧
    (readAt idf.encoding slice 0x34 0x36 = 0x40 →
      readAt idf.encoding slice 0x36 0x38 = 0x38 →
      readAt idf.encoding slice 0x3a 0x3c ≠ 0x40 →
      Header.new slice = .err (.UnexpectedSize .SectionHeader)) ∧
    (∀ u : UnexpectedSize, Error.UnexpectedSize u ≠ Error.SliceTooShort) := by
  refine ⟨?_, ?_, ?_, fun u h => by cases h⟩
  · intro hne
    simp [Header.new, hlen, hid, Header.SIZE, hne]
  · intro heq hne
    simp [Header.new, hlen, hid, Header.SIZE, ProgramHeader.SIZE, heq, hne]
  · intro heq1 heq2 hne
    simp [Header.new, hlen, hid, Header.SIZE, ProgramHeader.SIZE,
      SectionHeader.SIZE, heq1, heq2, hne]

/-- Witness for C7: a concrete little-endian header region declaring header
size 0x41 is rejected with `UnexpectedSize.Header`. -/
theorem header_new_reports_size_mismatch_witness :
    Header.new headerBufBadSize = .err (.UnexpectedSize .Header) :=
  (header_new_reports_size_mismatch headerBufBadSize
    ⟨._64, .Little, 1, .SystemV, 0⟩ (by decide) rfl).1 (by decide)

/-- Helper: `ProgramHeader::new` on a region of exactly its record size never
reports truncation (its only truncation exit is the length guard). -/
theorem programHeader_new_full_no_truncation (s : List Nat) (e : Encoding)
    (h : s.length = ProgramHeader.entry.SIZE) :
    ProgramHeader.entry.new s e ≠ .error .SliceTooShort := by
  intro hc
  simp [ProgramHeader.entry, ProgramHeader.new, ProgramHeader.SIZE, h] at hc

/-- C8.  For every record kind (any `Entry` whose decoder does not report
truncation when handed exactly `SIZE` bytes), region, endianness and index:
`Table::pick i` fails with the truncation error exactly when
`(i + 1) * SIZE` exceeds the region length, and otherwise returns exactly
the result of decoding the sub-region `[i * SIZE .. (i + 1) * SIZE]`
directly with the same endianness. -/
theorem table_pick_truncation_iff {α : Type} (E : Entry α)
    (hnew : ∀ (s : List Nat) (e : Encoding), s.length = E.SIZE →
      E.new s e ≠ .error .SliceTooShort)
    (slice : List Nat) (e : Encoding) (i : Nat) :
    (Table.pick E slice e i = .error .SliceTooShort ↔
      slice.length < (i + 1) * E.SIZE) ∧
    ((i + 1) * E.SIZE ≤ slice.length →
      Table.pick E slice e i =
        E.new (sub slice (i * E.SIZE) ((i + 1) * E.SIZE)) e) := by
  have hmul : (i + 1) * E.SIZE = i * E.SIZE + E.SIZE := by ring
  unfold Table.pick
  by_cases h1 : slice.length < i * E.SIZE
  · simp only [h1, if_true]
    refine ⟨⟨fun _ => by omega, fun _ => trivial⟩, fun hle => by omega⟩
  · have hdl : (slice.drop (i * E.SIZE)).length = slice.length - i * E.SIZE :=
      List.length_drop _ _
    by_cases h2 : (slice.drop (i * E.SIZE)).length < E.SIZE
    · simp only [h1, if_false, h2, if_true]
      rw [hdl] at h2
      refine ⟨⟨fun _ => by omega, fun _ => trivial⟩, fun hle => by omega⟩
    · simp only [h1, if_false, h2, if_true]
      rw [hdl] at h2
      have hlen2 : ((slice.drop (i * E.SIZE)).take E.SIZE).length = E.SIZE := by
        rw [List.length_take, hdl]
        omega
      have hsub : sub slice (i * E.SIZE) ((i + 1) * E.SIZE) =
          (slice.drop (i * E.SIZE)).take E.SIZE := by
        unfold sub
        congr 1
        omega
      refine ⟨⟨fun hc => absurd hc (hnew _ e hlen2), fun hlt => by omega⟩,
        fun _ => by rw [hsub]⟩

/-- Witness for C8 (instantiated at the program-header table): picking index
0 from an empty region fails with the truncation error. -/
theorem table_pick_truncation_iff_witness :
    Table.pick ProgramHeader.entry [] .Little 0 = .error .SliceTooShort :=
  (table_pick_truncation_iff ProgramHeader.entry
    programHeader_new_full_no_truncation [] .Little 0).1.mpr (by decide)

/-- C10.  Whenever `NoteTable::next` returns an error (truncation at either
guard, or a text-decoding failure), the cursor is left unchanged; it moves
only on success. -/
theorem noteTable_next_error_keeps_cursor (slice : List Nat) (e : Encoding)
    (pos : Nat) (er : Error)
    (herr : (NoteTable.next slice e pos).1 = .error er) :
    (NoteTable.next slice e pos).2 = pos := by
  by_cases h1 : slice.length < pos + 0x18
  · simp [NoteTable.next, h1]
  · by_cases h2 : slice.length <
        pos + 0x18 + align8 (readAt e slice 0x00 0x08) +
          align8 (readAt e slice 0x08 0x10)
    · simp [NoteTable.next, h1, h2]
    · cases hfe : fromUtf8 (sub slice (pos + 0x18)
          (pos + 0x18 + readAt e slice 0x00 0x08)) with
      | error e' => simp [NoteTable.next, h1, h2, hfe]
      | ok nm =>
        exfalso
        simp [NoteTable.next, h1, h2, hfe] at herr

/-- Witness for C10: the first truncation guard on an empty region with
cursor 5 leaves the cursor at 5. -/
theorem noteTable_next_error_keeps_cursor_witness :
    (NoteTable.next [] .Little 5).2 = 5 :=
  noteTable_next_error_keeps_cursor [] .Little 5 .SliceTooShort rfl

/-- Helper: closed form of the `StringTable::pick` scan loop over the suffix
`l`, starting from counter `length ≤ 0xff`, in terms of the maximal
zero-free prefix of `l`. -/
theorem pickLenGo_takeWhile (l : List Nat) :
    ∀ length : Nat, length ≤ 0xff →
    StringTable.pickLenGo l length =
      if (l.takeWhile (fun b => b != 0)).length < 0xff - length then
        (if (l.takeWhile (fun b => b != 0)).length < l.length
         then .ok (length + (l.takeWhile (fun b => b != 0)).length)
         else .error .SliceTooShort)
      else
        (if 0xff - length < l.length then .ok 0xff
         else .error .SliceTooShort) := by
  induction l with
  | nil =>
    intro length hlen
    unfold StringTable.pickLenGo
    simp only [List.takeWhile_nil, List.length_nil]
    split_ifs <;> first | rfl | omega
  | cons b rest ih =>
    intro length hlen
    unfold StringTable.pickLenGo
    by_cases hb : b = 0
    · have hTW : ((b :: rest).takeWhile (fun x => x != 0)).length = 0 := by
        simp [List.takeWhile_cons, hb]
      rw [hTW]
      have hcond : b = 0 ∨ length = 0xff := Or.inl hb
      rw [if_pos hcond]
      rcases Nat.lt_or_ge length 0xff with hlt | hge
      · rw [if_pos (by omega), if_pos (by simp)]
        simp
      · have h255 : length = 0xff := by omega
        rw [if_neg (by omega), if_pos (by simp [List.length_cons]; omega),
          h255]
    · have hTW : ((b :: rest).takeWhile (fun x => x != 0)).length =
          (rest.takeWhile (fun x => x != 0)).length + 1 := by
        simp [List.takeWhile_cons, hb]
      rw [hTW]
      by_cases h255 : length = 0xff
      · rw [if_pos (Or.inr h255)]
        rw [if_neg (by omega), if_pos (by simp [List.length_cons]; omega),
          h255]
      · rw [if_neg (by tauto)]
        rw [ih (length + 1) (by omega)]
        simp only [List.length_cons]
        split_ifs <;>
          first
            | rfl
            | (exact congrArg Except.ok (by omega))
            | omega

/-- C3 (amended).  `StringTable::pick(offset)` behaves exactly as
`StringTable.pickSpec` states: it returns the exact (UTF-8-validated) bytes
from `offset` up to and excluding the first zero byte when one occurs among
the first 0xff bytes; when the first 0xff bytes at `offset` are all non-zero
and the region extends past them it SUCCEEDS with exactly that capped
0xff-byte prefix (it does not fail at the cap); and it fails with the
truncation error exactly when the region ends before the scan finds a zero
byte or reaches the cap. -/
theorem stringTable_pick_matches_spec (slice : List Nat) (index : Nat) :
    StringTable.pick slice index = StringTable.pickSpec slice index := by
  unfold StringTable.pick StringTable.pickSpec
  rw [pickLenGo_takeWhile (slice.drop index) 0 (by omega)]
  simp only [Nat.sub_zero, Nat.zero_add]
  split_ifs <;> rfl

set_option maxRecDepth 4000 in
/-- C3 counterexample.  On a 300-byte region of non-zero bytes (0x61), the
scan reaches the 0xff cap and `pick 0` SUCCEEDS with the capped 0xff-byte
prefix — it does not fail with the truncation error as the claim states. -/
theorem stringTable_pick_cap_succeeds :
    StringTable.pick (List.replicate 300 0x61) 0 =
      .ok (List.replicate 0xff 0x61) ∧
    StringTable.pick (List.replicate 300 0x61) 0 ≠
      .error .SliceTooShort := by
  constructor
  · rfl
  · intro h
    rw [show StringTable.pick (List.replicate 300 0x61) 0 =
      .ok (List.replicate 0xff 0x61) from rfl] at h
    cases h

end Elf64
